import Mathlib

set_option maxRecDepth 10000

/-!
Shallow embedding of the rCTRL2 repository core, checked against its
natural-language specification.

The embedding covers:
* the ADS101x register codec (`src/rctrl_hw/src/adc/ads101x.rs`): the nine
  configuration-field enums, the `Config` word encode/decode, the raw
  conversion-word decoding of `read_raw`, and the `config` write/read-back
  operation;
* the real-time context tick (`src/rctrl/src/rctrl_sync.rs`: `Context::run`);
* the telemetry batcher (`src/rctrl/src/rctrl_async.rs`: `process_data`);
* the influx line-protocol encoding (`src/influx/src/lib.rs` and the code
  generated by `src/influx/derive/src/derive_struct.rs`).

Machine integers (`u16`) are modelled as `Nat` with masking made explicit
where the source relies on the 16-bit width; `f64` quantities whose exact
IEEE rounding is irrelevant to the claims (LSB sizes, voltages) are modelled
as `ℚ`; fallible transport operations are modelled as `Except` parameters.
Rust `match` arms that are `unreachable!()` are modelled as `Option` results
with `none` standing for the panic.
-/

namespace RCtrl

/-- Transport-level I2C failure (`i2cdev` errors surfaced through `anyhow`). -/
inductive TransportError
  | ioError
  deriving DecidableEq

/-! ## Register codec: field enums (`ads101x.rs` lines 27-355)

Each enum mirrors one bit-field of the 16-bit config register.  `toNat` is
the Rust `as u16` cast (the declared discriminant), and `fromWord` is the
`From<u16>` implementation, with the `unreachable!()` arm modelled as
`none`. -/

/-- Operational status bit (`Os`). -/
inductive Os
  | off
  | on
  deriving DecidableEq

/-- Input multiplexer field (`Mux`). -/
inductive Mux
  | ain0Ain1
  | ain0Ain3
  | ain1Ain3
  | ain2Ain3
  | ain0Gnd
  | ain1Gnd
  | ain2Gnd
  | ain3Gnd
  deriving DecidableEq

/-- Programmable gain amplifier field (`Pga`). -/
inductive Pga
  | fsr6_144V
  | fsr4_096V
  | fsr2_048V
  | fsr1_024V
  | fsr0_512V
  | fsr0_256V
  deriving DecidableEq

/-- Operating mode bit (`Mode`). -/
inductive Mode
  | continuous
  | singleShot
  deriving DecidableEq

/-- Data rate field (`DataRate`). -/
inductive DataRate
  | sps128
  | sps250
  | sps490
  | sps920
  | sps1600
  | sps2400
  | sps3300
  deriving DecidableEq

/-- Comparator mode bit (`CompMode`). -/
inductive CompMode
  | traditional
  | window
  deriving DecidableEq

/-- Comparator polarity bit (`CompPolarity`). -/
inductive CompPolarity
  | activeLow
  | activeHigh
  deriving DecidableEq

/-- Comparator latch bit (`CompLatch`). -/
inductive CompLatch
  | nonlatching
  | latching
  deriving DecidableEq

/-- Comparator queue field (`CompQueue`). -/
inductive CompQueue
  | oneConversion
  | twoConversion
  | fourConversion
  | disable
  deriving DecidableEq

/-- Rust `Os as u16`. -/
def Os.toNat : Os → Nat
  | .off => 0
  | .on => 1

/-- Rust `Mux as u16`. -/
def Mux.toNat : Mux → Nat
  | .ain0Ain1 => 0
  | .ain0Ain3 => 1
  | .ain1Ain3 => 2
  | .ain2Ain3 => 3
  | .ain0Gnd => 4
  | .ain1Gnd => 5
  | .ain2Gnd => 6
  | .ain3Gnd => 7

/-- Rust `Pga as u16`. -/
def Pga.toNat : Pga → Nat
  | .fsr6_144V => 0
  | .fsr4_096V => 1
  | .fsr2_048V => 2
  | .fsr1_024V => 3
  | .fsr0_512V => 4
  | .fsr0_256V => 5

/-- Rust `Mode as u16` (no explicit discriminants: `Continuous = 0`,
`SingleShot = 1`). -/
def Mode.toNat : Mode → Nat
  | .continuous => 0
  | .singleShot => 1

/-- Rust `DataRate as u16`. -/
def DataRate.toNat : DataRate → Nat
  | .sps128 => 0
  | .sps250 => 1
  | .sps490 => 2
  | .sps920 => 3
  | .sps1600 => 4
  | .sps2400 => 5
  | .sps3300 => 6

/-- Rust `CompMode as u16`. -/
def CompMode.toNat : CompMode → Nat
  | .traditional => 0
  | .window => 1

/-- Rust `CompPolarity as u16`. -/
def CompPolarity.toNat : CompPolarity → Nat
  | .activeLow => 0
  | .activeHigh => 1

/-- Rust `CompLatch as u16`. -/
def CompLatch.toNat : CompLatch → Nat
  | .nonlatching => 0
  | .latching => 1

/-- Rust `CompQueue as u16`. -/
def CompQueue.toNat : CompQueue → Nat
  | .oneConversion => 0
  | .twoConversion => 1
  | .fourConversion => 2
  | .disable => 3

/-- `impl From<u16> for Os`: `match (word & 0x8000) >> 15`. -/
def Os.fromWord (word : Nat) : Option Os :=
  match (word &&& 0x8000) >>> 15 with
  | 0 => some .off
  | 1 => some .on
  | _ => none

/-- `impl From<u16> for Mux`: `match (word & 0x7000) >> 12`. -/
def Mux.fromWord (word : Nat) : Option Mux :=
  match (word &&& 0x7000) >>> 12 with
  | 0 => some .ain0Ain1
  | 1 => some .ain0Ain3
  | 2 => some .ain1Ain3
  | 3 => some .ain2Ain3
  | 4 => some .ain0Gnd
  | 5 => some .ain1Gnd
  | 6 => some .ain2Gnd
  | 7 => some .ain3Gnd
  | _ => none

/-- `impl From<u16> for Pga`: `match (word & 0x0E00) >> 9`; the reserved
patterns 6 and 7 both map to `Fsr0_256V`. -/
def Pga.fromWord (word : Nat) : Option Pga :=
  match (word &&& 0x0E00) >>> 9 with
  | 0 => some .fsr6_144V
  | 1 => some .fsr4_096V
  | 2 => some .fsr2_048V
  | 3 => some .fsr1_024V
  | 4 => some .fsr0_512V
  | 5 => some .fsr0_256V
  | 6 => some .fsr0_256V
  | 7 => some .fsr0_256V
  | _ => none

/-- `impl From<u16> for Mode`: `match (word & 0x0100) >> 8`. -/
def Mode.fromWord (word : Nat) : Option Mode :=
  match (word &&& 0x0100) >>> 8 with
  | 0 => some .continuous
  | 1 => some .singleShot
  | _ => none

/-- `impl From<u16> for DataRate`: `match (word & 0x00E0) >> 5`; the
reserved pattern 7 maps to `Sps3300`. -/
def DataRate.fromWord (word : Nat) : Option DataRate :=
  match (word &&& 0x00E0) >>> 5 with
  | 0 => some .sps128
  | 1 => some .sps250
  | 2 => some .sps490
  | 3 => some .sps920
  | 4 => some .sps1600
  | 5 => some .sps2400
  | 6 => some .sps3300
  | 7 => some .sps3300
  | _ => none

/-- `impl From<u16> for CompMode`: `match (word & 0x0010) >> 4`. -/
def CompMode.fromWord (word : Nat) : Option CompMode :=
  match (word &&& 0x0010) >>> 4 with
  | 0 => some .traditional
  | 1 => some .window
  | _ => none

/-- `impl From<u16> for CompPolarity`: `match (word & 0x0008) >> 3`. -/
def CompPolarity.fromWord (word : Nat) : Option CompPolarity :=
  match (word &&& 0x0008) >>> 3 with
  | 0 => some .activeLow
  | 1 => some .activeHigh
  | _ => none

/-- `impl From<u16> for CompLatch`: `match (word & 0x0004) >> 2`. -/
def CompLatch.fromWord (word : Nat) : Option CompLatch :=
  match (word &&& 0x0004) >>> 2 with
  | 0 => some .nonlatching
  | 1 => some .latching
  | _ => none

/-- `impl From<u16> for CompQueue`: `match (word & 0x0003) >> 0`. -/
def CompQueue.fromWord (word : Nat) : Option CompQueue :=
  match (word &&& 0x0003) >>> 0 with
  | 0 => some .oneConversion
  | 1 => some .twoConversion
  | 2 => some .fourConversion
  | 3 => some .disable
  | _ => none

/-- The 16-bit `Config` register (`ads101x.rs` lines 364-375). -/
structure Config where
  os : Os
  mux : Mux
  pga : Pga
  mode : Mode
  data_rate : DataRate
  comp_mode : CompMode
  comp_polarity : CompPolarity
  comp_latch : CompLatch
  comp_queue : CompQueue
  deriving DecidableEq

/-- `impl Default for Config` (each field uses its own `Default`). -/
def Config.default : Config :=
  ⟨.on, .ain0Ain1, .fsr2_048V, .singleShot, .sps1600, .traditional,
    .activeLow, .nonlatching, .disable⟩

/-- `impl From<Config> for u16`: each field is cast, shifted to its offset
and the results are ORed together. -/
def configToWord (config : Config) : Nat :=
  let os := config.os.toNat <<< 15
  let mux := config.mux.toNat <<< 12
  let pga := config.pga.toNat <<< 9
  let mode := config.mode.toNat <<< 8
  let data_rate := config.data_rate.toNat <<< 5
  let comp_mode := config.comp_mode.toNat <<< 4
  let comp_polarity := config.comp_polarity.toNat <<< 3
  let comp_latch := config.comp_latch.toNat <<< 2
  let comp_queue := config.comp_queue.toNat <<< 0
  os ||| mux ||| pga ||| mode ||| data_rate ||| comp_mode ||| comp_polarity ||| comp_latch |||
    comp_queue

/-- `impl From<u16> for Config`: every field decoded from the same word.
`none` models a panic in any field decoder (which never actually occurs). -/
def Config.fromWord (word : Nat) : Option Config := do
  let os ← Os.fromWord word
  let mux ← Mux.fromWord word
  let pga ← Pga.fromWord word
  let mode ← Mode.fromWord word
  let data_rate ← DataRate.fromWord word
  let comp_mode ← CompMode.fromWord word
  let comp_polarity ← CompPolarity.fromWord word
  let comp_latch ← CompLatch.fromWord word
  let comp_queue ← CompQueue.fromWord word
  pure ⟨os, mux, pga, mode, data_rate, comp_mode, comp_polarity, comp_latch, comp_queue⟩


/-! ## Raw conversion-word decoding (`ADS101x::read_raw`, lines 540-558)

The conversion register word is a `u16`; the byte manipulation, shift and
sign fix-up are mirrored operation for operation.  All intermediate values
fit in 16 bits, the `% 65536` making the `u16` width explicit. -/

/-- The byte manipulation of `read_raw`: `msb = raw & 0xFF`,
`lsb = raw & 0xFF00`, then `raw = (msb << 8 | lsb) >> 4`. -/
def swapShift (w : Nat) : Nat :=
  let msb := w &&& 0xFF
  let lsb := w &&& 0xFF00
  ((msb <<< 8 ||| lsb) % 65536) >>> 4

/-- The sign fix-up of `read_raw`:
`if (raw & 0x8000) != 0 { raw = 0xF000 | raw }`. -/
def signFix (raw : Nat) : Nat :=
  if raw &&& 0x8000 ≠ 0 then 0xF000 ||| raw else raw

/-- The full bit manipulation of `read_raw` on the transfer word. -/
def decodeRawBits (w : Nat) : Nat := signFix (swapShift w)

/-- Rust `as i16`: reinterpret low 16 bits as a two's-complement integer. -/
def asI16 (bits : Nat) : Int :=
  let low := bits % 65536
  if low < 32768 then (low : Int) else (low : Int) - 65536

/-- `Pga::as_lsb`: volts per count for each gain setting, as exact
rationals (the `f64` constants 3E-3 .. 0.125E-3 are exactly these values
up to the claims considered here, which only concern sign and linear
scaling). -/
def Pga.as_lsb : Pga → ℚ
  | .fsr6_144V => 3 / 1000
  | .fsr4_096V => 2 / 1000
  | .fsr2_048V => 1 / 1000
  | .fsr1_024V => 5 / 10000
  | .fsr0_512V => 25 / 100000
  | .fsr0_256V => 125 / 1000000

/-- `read_raw` as a function of the transfer word read from the conversion
register and the gain in effect: decode, reinterpret as `i16`, scale. -/
def read_raw_voltage (w : Nat) (pga : Pga) : ℚ :=
  (asI16 (decodeRawBits w) : ℚ) * pga.as_lsb

/-! ## `ADS101x::config` (lines 527-537)

The transport is modelled by the results of the two smbus operations.  The
returned outcome carries the `Result`, the new in-memory config mirror
(`self.config`), and the log entries the operation emits; the source's
mismatch branch `if self.config != config { }` is empty (its error is
commented out behind a TODO), so no arm of the model appends a log entry
or produces an error for a mismatch.  `none` models a decoder panic, which
`config_fromWord_isSome` shows never occurs. -/

/-- Observable outcome of one `ADS101x::config` call. -/
structure ConfigOutcome where
  result : Except TransportError Unit
  mirror : Config
  log : List String

/-- `ADS101x::config`: write the encoded word, read back, store the decoded
read-back as the new mirror, return `Ok(())`. -/
def ADS101x.configOp (self requested : Config) (writeRes : Except TransportError Unit)
    (readWord : Except TransportError Nat) : Option ConfigOutcome :=
  match writeRes with
  | .error e => some ⟨.error e, self, []⟩
  | .ok _ =>
    match readWord with
    | .error e => some ⟨.error e, self, []⟩
    | .ok w =>
      match Config.fromWord w with
      | none => none
      | some newConfig => some ⟨.ok (), newConfig, []⟩

/-! ## Sensor conversion and the real-time tick (`rctrl_sync.rs`)

`Context::run` is modelled as a function of the three external inputs of
one tick: the result of `cmd_rx.try_recv()`, whether `data_tx.try_send`
accepts the frame, and the result of the ADC read.  It returns the ordered
event trace of the tick, the frame handed to `try_send`, and the value of
the local `data` variable at the end of the call (which the source then
drops, `run` returning unit). -/

/-- `PressureUnit` (rctrl_hw sensor output unit tag). -/
inductive PressureUnit
  | bar
  deriving DecidableEq

/-- A calibrated pressure reading. -/
structure Pressure where
  pressure : ℚ
  unit : PressureUnit
  deriving DecidableEq

/-- `KellerPA7LC::conversion`: the identity transfer function tagging the
voltage as bar. -/
def KellerPA7LC.conversion (voltage : ℚ) : Pressure := ⟨voltage, .bar⟩

/-- `CmdEnum` of the wire protocol. -/
inductive CmdEnum
  | valveOpen
  | valveClose
  deriving DecidableEq

/-- `Cmd` of the wire protocol. -/
structure Cmd where
  cmd : CmdEnum
  deriving DecidableEq

/-- The `Data` frame as used by `rctrl_sync.rs`: optional sensor reading,
optional actuator state, optional log message. -/
structure Data where
  sensor : Option Pressure
  valve : Option Bool
  log_msg : Option String
  deriving DecidableEq

/-- `Data::default()`. -/
def Data.default : Data := ⟨none, none, none⟩

/-- One observable step of a `Context::run` tick. -/
inductive RunEvent
  | applyCmd (c : CmdEnum)
  | pushFrame (frame : Data) (accepted : Bool)
  | sleep
  | readSensor (ok : Bool)
  deriving DecidableEq

/-- Result of one `Context::run` tick. -/
structure RunResult where
  trace : List RunEvent
  pushed : Data
  finalData : Data
  deriving DecidableEq

/-- Whether an ADC read result is a success. -/
def readOkOf : Except TransportError ℚ → Bool
  | .ok _ => true
  | .error _ => false

/-- `Context::run`: apply at most one pending command to the fresh frame,
clone and `try_send` the frame, sleep, then read the sensor into the local
frame variable (which is subsequently dropped). -/
def Context.run (cmdRecv : Option Cmd) (sendAccepted : Bool)
    (readRes : Except TransportError ℚ) : RunResult :=
  let data0 : Data := Data.default
  let step1 : Data × List RunEvent :=
    match cmdRecv with
    | some cmd =>
      match cmd.cmd with
      | .valveOpen =>
        (⟨data0.sensor, some true, some "valve opened"⟩, [.applyCmd .valveOpen])
      | .valveClose =>
        (⟨data0.sensor, some false, some "valve closed"⟩, [.applyCmd .valveClose])
    | none => (data0, [])
  let data1 := step1.1
  let readSensor : Option Pressure :=
    match readRes with
    | .ok voltage => some (KellerPA7LC.conversion voltage)
    | .error _ => none
  let data2 : Data := ⟨readSensor, data1.valve, data1.log_msg⟩
  { trace := step1.2 ++ [.pushFrame data1 sendAccepted, .sleep, .readSensor (readOkOf readRes)]
    pushed := data1
    finalData := data2 }

/-! ## Influx field values (`src/influx/src/lib.rs`, `ToFieldValue`)

The `f64` case returns `self.to_string()` unchanged; its IEEE `Display`
rendering is abstracted as the already rendered numeral string, since the
implementation appends nothing to it. -/

/-- A value a line-protocol field can carry. -/
inductive FieldValue
  | signed (n : ℤ)
  | unsigned (n : ℕ)
  | floating (numeral : String)
  | boolean (b : Bool)

/-- The four `ToFieldValue` implementations. -/
def toFieldValue : FieldValue → String
  | .signed n => toString n ++ "i"
  | .unsigned n => toString n ++ "u"
  | .floating numeral => numeral
  | .boolean b => if b then "true" else "false"

/-! ## Generated line-protocol encoding (`derive_struct.rs`)

`generate_to_line_protocol` emits, for a struct with a measurement
attribute, tag members and field members, a function that joins
`measurement :: tags` with commas, joins the fields with commas, and
formats `"{} {} {}"` with the joined tags, joined fields and the
timestamp.  The timestamp comes from the system clock; it is modelled as
an input, with its only failure mode (`SystemTimeError`, converted to
`FailedToGetSystemTime` by the `?` operator). -/

/-- Errors of the influx crate (`src/influx/src/error.rs`). -/
inductive LineProtocolError
  | genericError
  | failedToGetSystemTime
  deriving DecidableEq

/-- The compile-time description of one deriving struct instance, paired
with the runtime values its generated `to_line_protocol` reads: rendered
tag pairs, rendered field pairs, and the timestamp reading. -/
structure LineProtocolEntity where
  measurement : String
  tags : List (String × String)
  fields : List (String × String)
  timestamp : Except LineProtocolError Nat

/-- The function generated by `DeriveStruct::generate_to_line_protocol`. -/
def toLineProtocol (e : LineProtocolEntity) : Except LineProtocolError String :=
  let tags := e.measurement :: e.tags.map (fun t => t.1 ++ "=" ++ t.2)
  let fields := e.fields.map (fun f => f.1 ++ "=" ++ f.2)
  match e.timestamp with
  | .error err => .error err
  | .ok ts =>
    .ok (String.intercalate "," tags ++ " " ++ String.intercalate "," fields ++ " " ++
      toString ts)

/-! ## Telemetry batcher (`process_data` in `rctrl_async.rs`, lines 169-218)

The buffer is modelled as the list of appended line-protocol entries (the
source appends them to one string with `push_str`; the list keeps the
entry boundaries observable).  Each incoming frame brings whether the 15ms
rate limit has elapsed and the result of `to_line_protocol_entries`.
Entries are appended with `pop()` from the back of the entry vector, hence
the `reverse`.  After each frame, if the entry counter exceeds 50 the
buffer is handed to a flush task, the capacity high-water mark grows if the
buffer outgrew it, and a fresh empty buffer is started. -/

/-- External inputs one received frame contributes to `process_data`. -/
structure FrameInput where
  elapsed15 : Bool
  entriesRes : Except LineProtocolError (List String)

/-- The loop state of `process_data`. -/
structure BatchState where
  buf : List String
  entries : Nat
  capacity : Nat
  flushes : List (List String)
  latestUpdates : Nat
  deriving DecidableEq

/-- State at the top of the outer loop: empty buffer, zero entries,
capacity 20, nothing flushed. -/
def initialBatchState : BatchState := ⟨[], 0, 20, [], 0⟩

/-- One iteration of the inner `while let Some(data) = data_rx.recv()`
loop body of `process_data`. -/
def processFrame (st : BatchState) (f : FrameInput) : BatchState :=
  let st1 := if f.elapsed15 then { st with latestUpdates := st.latestUpdates + 1 } else st
  let st2 :=
    match f.entriesRes with
    | .ok es => { st1 with buf := st1.buf ++ es.reverse, entries := st1.entries + es.length }
    | .error _ => st1
  if st2.entries > 50 then
    let bufLen := (st2.buf.map String.length).sum
    let grown := if bufLen > st2.capacity then bufLen else st2.capacity
    { buf := [], entries := 0, capacity := grown, flushes := st2.flushes ++ [st2.buf],
      latestUpdates := st2.latestUpdates }
  else st2

/-- `process_data` over a finite incoming frame sequence. -/
def process_data (frames : List FrameInput) : BatchState :=
  frames.foldl processFrame initialBatchState


end RCtrl

namespace RCtrl

/-! ## Bit-arithmetic helpers for the codec proofs -/

/-- ORing is addition when the low bits of `a` up to the power of two `K` are
clear and `b` fits below `K`. -/
theorem lor_eq_add_of (K : Nat) {a b : Nat} (hK : ∃ i, K = 2 ^ i) (ha : K ∣ a) (hb : b < K) :
    a ||| b = a + b := by
  obtain ⟨i, rfl⟩ := hK
  obtain ⟨q, rfl⟩ := ha
  exact (Nat.mul_add_lt_is_or hb q).symm

/-- Extracting a contiguous `m`-bit field at offset `off` is a divide and a
modulus. -/
theorem and_mask_shr (x m off : Nat) :
    (x &&& (2 ^ m - 1) <<< off) >>> off = x / 2 ^ off % 2 ^ m := by
  have h : (x &&& (2 ^ m - 1) <<< off) >>> off = (x >>> off) % 2 ^ m := by
    apply Nat.eq_of_testBit_eq
    intro i
    simp only [Nat.testBit_shiftRight, Nat.testBit_and, Nat.testBit_shiftLeft,
      Nat.testBit_two_pow_sub_one, Nat.testBit_mod_two_pow]
    by_cases hi : i < m
    · simp [hi, Nat.le_add_right, Nat.add_sub_cancel_left]
    · simp [hi, Nat.le_add_right, Nat.add_sub_cancel_left]
  rw [h, Nat.shiftRight_eq_div_pow]

theorem os_toNat_lt (x : Os) : x.toNat < 2 := by cases x <;> decide

theorem mux_toNat_lt (x : Mux) : x.toNat < 8 := by cases x <;> decide

theorem pga_toNat_lt (x : Pga) : x.toNat < 8 := by cases x <;> decide

theorem mode_toNat_lt (x : Mode) : x.toNat < 2 := by cases x <;> decide

theorem data_rate_toNat_lt (x : DataRate) : x.toNat < 8 := by cases x <;> decide

theorem comp_mode_toNat_lt (x : CompMode) : x.toNat < 2 := by cases x <;> decide

theorem comp_polarity_toNat_lt (x : CompPolarity) : x.toNat < 2 := by cases x <;> decide

theorem comp_latch_toNat_lt (x : CompLatch) : x.toNat < 2 := by cases x <;> decide

theorem comp_queue_toNat_lt (x : CompQueue) : x.toNat < 4 := by cases x <;> decide

/-- The encoded config word, written as a plain weighted sum: all nine
bit-fields occupy disjoint bit ranges, so the ORs of
`impl From<Config> for u16` are additions. -/
theorem configToWord_eq (c : Config) :
    configToWord c =
      c.os.toNat * 32768 + c.mux.toNat * 4096 + c.pga.toNat * 512 + c.mode.toNat * 256 +
        c.data_rate.toNat * 32 + c.comp_mode.toNat * 16 + c.comp_polarity.toNat * 8 +
        c.comp_latch.toNat * 4 + c.comp_queue.toNat := by
  have hos := os_toNat_lt c.os
  have hmux := mux_toNat_lt c.mux
  have hpga := pga_toNat_lt c.pga
  have hmode := mode_toNat_lt c.mode
  have hdr := data_rate_toNat_lt c.data_rate
  have hcm := comp_mode_toNat_lt c.comp_mode
  have hcp := comp_polarity_toNat_lt c.comp_polarity
  have hcl := comp_latch_toNat_lt c.comp_latch
  have hcq := comp_queue_toNat_lt c.comp_queue
  show c.os.toNat <<< 15 ||| c.mux.toNat <<< 12 ||| c.pga.toNat <<< 9 ||| c.mode.toNat <<< 8 |||
      c.data_rate.toNat <<< 5 ||| c.comp_mode.toNat <<< 4 ||| c.comp_polarity.toNat <<< 3 |||
      c.comp_latch.toNat <<< 2 ||| c.comp_queue.toNat <<< 0 = _
  simp only [Nat.shiftLeft_eq]
  norm_num
  rw [lor_eq_add_of 32768 (a := c.os.toNat * 32768) (b := c.mux.toNat * 4096)
    ⟨15, by norm_num⟩ ⟨c.os.toNat, by ring⟩ (by omega)]
  rw [lor_eq_add_of 4096 (a := c.os.toNat * 32768 + c.mux.toNat * 4096) (b := c.pga.toNat * 512)
    ⟨12, by norm_num⟩ ⟨c.os.toNat * 8 + c.mux.toNat, by ring⟩ (by omega)]
  rw [lor_eq_add_of 512
    (a := c.os.toNat * 32768 + c.mux.toNat * 4096 + c.pga.toNat * 512)
    (b := c.mode.toNat * 256)
    ⟨9, by norm_num⟩ ⟨c.os.toNat * 64 + c.mux.toNat * 8 + c.pga.toNat, by ring⟩ (by omega)]
  rw [lor_eq_add_of 256
    (a := c.os.toNat * 32768 + c.mux.toNat * 4096 + c.pga.toNat * 512 + c.mode.toNat * 256)
    (b := c.data_rate.toNat * 32)
    ⟨8, by norm_num⟩
    ⟨c.os.toNat * 128 + c.mux.toNat * 16 + c.pga.toNat * 2 + c.mode.toNat, by ring⟩ (by omega)]
  rw [lor_eq_add_of 32
    (a := c.os.toNat * 32768 + c.mux.toNat * 4096 + c.pga.toNat * 512 + c.mode.toNat * 256 +
      c.data_rate.toNat * 32)
    (b := c.comp_mode.toNat * 16)
    ⟨5, by norm_num⟩
    ⟨c.os.toNat * 1024 + c.mux.toNat * 128 + c.pga.toNat * 16 + c.mode.toNat * 8 +
      c.data_rate.toNat, by ring⟩ (by omega)]
  rw [lor_eq_add_of 16
    (a := c.os.toNat * 32768 + c.mux.toNat * 4096 + c.pga.toNat * 512 + c.mode.toNat * 256 +
      c.data_rate.toNat * 32 + c.comp_mode.toNat * 16)
    (b := c.comp_polarity.toNat * 8)
    ⟨4, by norm_num⟩
    ⟨c.os.toNat * 2048 + c.mux.toNat * 256 + c.pga.toNat * 32 + c.mode.toNat * 16 +
      c.data_rate.toNat * 2 + c.comp_mode.toNat, by ring⟩ (by omega)]
  rw [lor_eq_add_of 8
    (a := c.os.toNat * 32768 + c.mux.toNat * 4096 + c.pga.toNat * 512 + c.mode.toNat * 256 +
      c.data_rate.toNat * 32 + c.comp_mode.toNat * 16 + c.comp_polarity.toNat * 8)
    (b := c.comp_latch.toNat * 4)
    ⟨3, by norm_num⟩
    ⟨c.os.toNat * 4096 + c.mux.toNat * 512 + c.pga.toNat * 64 + c.mode.toNat * 32 +
      c.data_rate.toNat * 4 + c.comp_mode.toNat * 2 + c.comp_polarity.toNat, by ring⟩ (by omega)]
  rw [lor_eq_add_of 4
    (a := c.os.toNat * 32768 + c.mux.toNat * 4096 + c.pga.toNat * 512 + c.mode.toNat * 256 +
      c.data_rate.toNat * 32 + c.comp_mode.toNat * 16 + c.comp_polarity.toNat * 8 +
      c.comp_latch.toNat * 4)
    (b := c.comp_queue.toNat)
    ⟨2, by norm_num⟩
    ⟨c.os.toNat * 8192 + c.mux.toNat * 1024 + c.pga.toNat * 128 + c.mode.toNat * 64 +
      c.data_rate.toNat * 8 + c.comp_mode.toNat * 4 + c.comp_polarity.toNat * 2 +
      c.comp_latch.toNat, by ring⟩ (by omega)]

/-- Extracting the OS bit from an encoded config word. -/
theorem os_extract (c : Config) : (configToWord c &&& 0x8000) >>> 15 = c.os.toNat := by
  have hm : (0x8000 : Nat) = (2 ^ 1 - 1) <<< 15 := by decide
  rw [hm, and_mask_shr, configToWord_eq]
  have hos := os_toNat_lt c.os
  have hmux := mux_toNat_lt c.mux
  have hpga := pga_toNat_lt c.pga
  have hmode := mode_toNat_lt c.mode
  have hdr := data_rate_toNat_lt c.data_rate
  have hcm := comp_mode_toNat_lt c.comp_mode
  have hcp := comp_polarity_toNat_lt c.comp_polarity
  have hcl := comp_latch_toNat_lt c.comp_latch
  have hcq := comp_queue_toNat_lt c.comp_queue
  omega

/-- Extracting the MUX field from an encoded config word. -/
theorem mux_extract (c : Config) : (configToWord c &&& 0x7000) >>> 12 = c.mux.toNat := by
  have hm : (0x7000 : Nat) = (2 ^ 3 - 1) <<< 12 := by decide
  rw [hm, and_mask_shr, configToWord_eq]
  have hos := os_toNat_lt c.os
  have hmux := mux_toNat_lt c.mux
  have hpga := pga_toNat_lt c.pga
  have hmode := mode_toNat_lt c.mode
  have hdr := data_rate_toNat_lt c.data_rate
  have hcm := comp_mode_toNat_lt c.comp_mode
  have hcp := comp_polarity_toNat_lt c.comp_polarity
  have hcl := comp_latch_toNat_lt c.comp_latch
  have hcq := comp_queue_toNat_lt c.comp_queue
  omega

/-- Extracting the PGA field from an encoded config word. -/
theorem pga_extract (c : Config) : (configToWord c &&& 0x0E00) >>> 9 = c.pga.toNat := by
  have hm : (0x0E00 : Nat) = (2 ^ 3 - 1) <<< 9 := by decide
  rw [hm, and_mask_shr, configToWord_eq]
  have hos := os_toNat_lt c.os
  have hmux := mux_toNat_lt c.mux
  have hpga := pga_toNat_lt c.pga
  have hmode := mode_toNat_lt c.mode
  have hdr := data_rate_toNat_lt c.data_rate
  have hcm := comp_mode_toNat_lt c.comp_mode
  have hcp := comp_polarity_toNat_lt c.comp_polarity
  have hcl := comp_latch_toNat_lt c.comp_latch
  have hcq := comp_queue_toNat_lt c.comp_queue
  omega

/-- Extracting the MODE bit from an encoded config word. -/
theorem mode_extract (c : Config) : (configToWord c &&& 0x0100) >>> 8 = c.mode.toNat := by
  have hm : (0x0100 : Nat) = (2 ^ 1 - 1) <<< 8 := by decide
  rw [hm, and_mask_shr, configToWord_eq]
  have hos := os_toNat_lt c.os
  have hmux := mux_toNat_lt c.mux
  have hpga := pga_toNat_lt c.pga
  have hmode := mode_toNat_lt c.mode
  have hdr := data_rate_toNat_lt c.data_rate
  have hcm := comp_mode_toNat_lt c.comp_mode
  have hcp := comp_polarity_toNat_lt c.comp_polarity
  have hcl := comp_latch_toNat_lt c.comp_latch
  have hcq := comp_queue_toNat_lt c.comp_queue
  omega

/-- Extracting the DATA RATE field from an encoded config word. -/
theorem data_rate_extract (c : Config) :
    (configToWord c &&& 0x00E0) >>> 5 = c.data_rate.toNat := by
  have hm : (0x00E0 : Nat) = (2 ^ 3 - 1) <<< 5 := by decide
  rw [hm, and_mask_shr, configToWord_eq]
  have hos := os_toNat_lt c.os
  have hmux := mux_toNat_lt c.mux
  have hpga := pga_toNat_lt c.pga
  have hmode := mode_toNat_lt c.mode
  have hdr := data_rate_toNat_lt c.data_rate
  have hcm := comp_mode_toNat_lt c.comp_mode
  have hcp := comp_polarity_toNat_lt c.comp_polarity
  have hcl := comp_latch_toNat_lt c.comp_latch
  have hcq := comp_queue_toNat_lt c.comp_queue
  omega

/-- Extracting the COMP MODE bit from an encoded config word. -/
theorem comp_mode_extract (c : Config) :
    (configToWord c &&& 0x0010) >>> 4 = c.comp_mode.toNat := by
  have hm : (0x0010 : Nat) = (2 ^ 1 - 1) <<< 4 := by decide
  rw [hm, and_mask_shr, configToWord_eq]
  have hos := os_toNat_lt c.os
  have hmux := mux_toNat_lt c.mux
  have hpga := pga_toNat_lt c.pga
  have hmode := mode_toNat_lt c.mode
  have hdr := data_rate_toNat_lt c.data_rate
  have hcm := comp_mode_toNat_lt c.comp_mode
  have hcp := comp_polarity_toNat_lt c.comp_polarity
  have hcl := comp_latch_toNat_lt c.comp_latch
  have hcq := comp_queue_toNat_lt c.comp_queue
  omega

/-- Extracting the COMP POLARITY bit from an encoded config word. -/
theorem comp_polarity_extract (c : Config) :
    (configToWord c &&& 0x0008) >>> 3 = c.comp_polarity.toNat := by
  have hm : (0x0008 : Nat) = (2 ^ 1 - 1) <<< 3 := by decide
  rw [hm, and_mask_shr, configToWord_eq]
  have hos := os_toNat_lt c.os
  have hmux := mux_toNat_lt c.mux
  have hpga := pga_toNat_lt c.pga
  have hmode := mode_toNat_lt c.mode
  have hdr := data_rate_toNat_lt c.data_rate
  have hcm := comp_mode_toNat_lt c.comp_mode
  have hcp := comp_polarity_toNat_lt c.comp_polarity
  have hcl := comp_latch_toNat_lt c.comp_latch
  have hcq := comp_queue_toNat_lt c.comp_queue
  omega

/-- Extracting the COMP LATCH bit from an encoded config word. -/
theorem comp_latch_extract (c : Config) :
    (configToWord c &&& 0x0004) >>> 2 = c.comp_latch.toNat := by
  have hm : (0x0004 : Nat) = (2 ^ 1 - 1) <<< 2 := by decide
  rw [hm, and_mask_shr, configToWord_eq]
  have hos := os_toNat_lt c.os
  have hmux := mux_toNat_lt c.mux
  have hpga := pga_toNat_lt c.pga
  have hmode := mode_toNat_lt c.mode
  have hdr := data_rate_toNat_lt c.data_rate
  have hcm := comp_mode_toNat_lt c.comp_mode
  have hcp := comp_polarity_toNat_lt c.comp_polarity
  have hcl := comp_latch_toNat_lt c.comp_latch
  have hcq := comp_queue_toNat_lt c.comp_queue
  omega

/-- Extracting the COMP QUEUE field from an encoded config word. -/
theorem comp_queue_extract (c : Config) :
    (configToWord c &&& 0x0003) >>> 0 = c.comp_queue.toNat := by
  have hm : (0x0003 : Nat) = (2 ^ 2 - 1) <<< 0 := by decide
  rw [hm, and_mask_shr, configToWord_eq]
  have hos := os_toNat_lt c.os
  have hmux := mux_toNat_lt c.mux
  have hpga := pga_toNat_lt c.pga
  have hmode := mode_toNat_lt c.mode
  have hdr := data_rate_toNat_lt c.data_rate
  have hcm := comp_mode_toNat_lt c.comp_mode
  have hcp := comp_polarity_toNat_lt c.comp_polarity
  have hcl := comp_latch_toNat_lt c.comp_latch
  have hcq := comp_queue_toNat_lt c.comp_queue
  omega

/-- Decoding the OS bit recovers the field whose cast produced it. -/
theorem os_fromWord_eq (w : Nat) (x : Os) (h : (w &&& 0x8000) >>> 15 = x.toNat) :
    Os.fromWord w = some x := by
  unfold Os.fromWord
  rw [h]
  cases x <;> rfl

/-- Decoding the MUX field recovers the field whose cast produced it. -/
theorem mux_fromWord_eq (w : Nat) (x : Mux) (h : (w &&& 0x7000) >>> 12 = x.toNat) :
    Mux.fromWord w = some x := by
  unfold Mux.fromWord
  rw [h]
  cases x <;> rfl

/-- Decoding the PGA field recovers the field whose cast produced it. -/
theorem pga_fromWord_eq (w : Nat) (x : Pga) (h : (w &&& 0x0E00) >>> 9 = x.toNat) :
    Pga.fromWord w = some x := by
  unfold Pga.fromWord
  rw [h]
  cases x <;> rfl

/-- Decoding the MODE bit recovers the field whose cast produced it. -/
theorem mode_fromWord_eq (w : Nat) (x : Mode) (h : (w &&& 0x0100) >>> 8 = x.toNat) :
    Mode.fromWord w = some x := by
  unfold Mode.fromWord
  rw [h]
  cases x <;> rfl

/-- Decoding the DATA RATE field recovers the field whose cast produced it. -/
theorem data_rate_fromWord_eq (w : Nat) (x : DataRate)
    (h : (w &&& 0x00E0) >>> 5 = x.toNat) : DataRate.fromWord w = some x := by
  unfold DataRate.fromWord
  rw [h]
  cases x <;> rfl

/-- Decoding the COMP MODE bit recovers the field whose cast produced it. -/
theorem comp_mode_fromWord_eq (w : Nat) (x : CompMode)
    (h : (w &&& 0x0010) >>> 4 = x.toNat) : CompMode.fromWord w = some x := by
  unfold CompMode.fromWord
  rw [h]
  cases x <;> rfl

/-- Decoding the COMP POLARITY bit recovers the field whose cast produced it. -/
theorem comp_polarity_fromWord_eq (w : Nat) (x : CompPolarity)
    (h : (w &&& 0x0008) >>> 3 = x.toNat) : CompPolarity.fromWord w = some x := by
  unfold CompPolarity.fromWord
  rw [h]
  cases x <;> rfl

/-- Decoding the COMP LATCH bit recovers the field whose cast produced it. -/
theorem comp_latch_fromWord_eq (w : Nat) (x : CompLatch)
    (h : (w &&& 0x0004) >>> 2 = x.toNat) : CompLatch.fromWord w = some x := by
  unfold CompLatch.fromWord
  rw [h]
  cases x <;> rfl

/-- Decoding the COMP QUEUE field recovers the field whose cast produced it. -/
theorem comp_queue_fromWord_eq (w : Nat) (x : CompQueue)
    (h : (w &&& 0x0003) >>> 0 = x.toNat) : CompQueue.fromWord w = some x := by
  unfold CompQueue.fromWord
  rw [h]
  cases x <;> rfl

/-- Round trip of the whole config word: decoding an encoded config recovers
every field. -/
theorem Config.fromWord_configToWord (c : Config) :
    Config.fromWord (configToWord c) = some c := by
  unfold Config.fromWord
  rw [os_fromWord_eq _ _ (os_extract c), mux_fromWord_eq _ _ (mux_extract c),
    pga_fromWord_eq _ _ (pga_extract c), mode_fromWord_eq _ _ (mode_extract c),
    data_rate_fromWord_eq _ _ (data_rate_extract c),
    comp_mode_fromWord_eq _ _ (comp_mode_extract c),
    comp_polarity_fromWord_eq _ _ (comp_polarity_extract c),
    comp_latch_fromWord_eq _ _ (comp_latch_extract c),
    comp_queue_fromWord_eq _ _ (comp_queue_extract c)]
  rfl

/-- The OS decoder never reaches its `unreachable!()` arm. -/
theorem os_fromWord_isSome (w : Nat) : (Os.fromWord w).isSome := by
  unfold Os.fromWord
  have hm : (0x8000 : Nat) = (2 ^ 1 - 1) <<< 15 := by decide
  rw [hm, and_mask_shr]
  norm_num
  generalize hv : w / 32768 % 2 = v
  have hlt : v < 2 := hv ▸ Nat.mod_lt _ (by norm_num)
  interval_cases v <;> rfl

/-- The MUX decoder never reaches its `unreachable!()` arm. -/
theorem mux_fromWord_isSome (w : Nat) : (Mux.fromWord w).isSome := by
  unfold Mux.fromWord
  have hm : (0x7000 : Nat) = (2 ^ 3 - 1) <<< 12 := by decide
  rw [hm, and_mask_shr]
  norm_num
  generalize hv : w / 4096 % 8 = v
  have hlt : v < 8 := hv ▸ Nat.mod_lt _ (by norm_num)
  interval_cases v <;> rfl

/-- The PGA decoder never reaches its `unreachable!()` arm. -/
theorem pga_fromWord_isSome (w : Nat) : (Pga.fromWord w).isSome := by
  unfold Pga.fromWord
  have hm : (0x0E00 : Nat) = (2 ^ 3 - 1) <<< 9 := by decide
  rw [hm, and_mask_shr]
  norm_num
  generalize hv : w / 512 % 8 = v
  have hlt : v < 8 := hv ▸ Nat.mod_lt _ (by norm_num)
  interval_cases v <;> rfl

/-- The MODE decoder never reaches its `unreachable!()` arm. -/
theorem mode_fromWord_isSome (w : Nat) : (Mode.fromWord w).isSome := by
  unfold Mode.fromWord
  have hm : (0x0100 : Nat) = (2 ^ 1 - 1) <<< 8 := by decide
  rw [hm, and_mask_shr]
  norm_num
  generalize hv : w / 256 % 2 = v
  have hlt : v < 2 := hv ▸ Nat.mod_lt _ (by norm_num)
  interval_cases v <;> rfl

/-- The DATA RATE decoder never reaches its `unreachable!()` arm. -/
theorem data_rate_fromWord_isSome (w : Nat) : (DataRate.fromWord w).isSome := by
  unfold DataRate.fromWord
  have hm : (0x00E0 : Nat) = (2 ^ 3 - 1) <<< 5 := by decide
  rw [hm, and_mask_shr]
  norm_num
  generalize hv : w / 32 % 8 = v
  have hlt : v < 8 := hv ▸ Nat.mod_lt _ (by norm_num)
  interval_cases v <;> rfl

/-- The COMP MODE decoder never reaches its `unreachable!()` arm. -/
theorem comp_mode_fromWord_isSome (w : Nat) : (CompMode.fromWord w).isSome := by
  unfold CompMode.fromWord
  have hm : (0x0010 : Nat) = (2 ^ 1 - 1) <<< 4 := by decide
  rw [hm, and_mask_shr]
  norm_num
  generalize hv : w / 16 % 2 = v
  have hlt : v < 2 := hv ▸ Nat.mod_lt _ (by norm_num)
  interval_cases v <;> rfl

/-- The COMP POLARITY decoder never reaches its `unreachable!()` arm. -/
theorem comp_polarity_fromWord_isSome (w : Nat) : (CompPolarity.fromWord w).isSome := by
  unfold CompPolarity.fromWord
  have hm : (0x0008 : Nat) = (2 ^ 1 - 1) <<< 3 := by decide
  rw [hm, and_mask_shr]
  norm_num
  generalize hv : w / 8 % 2 = v
  have hlt : v < 2 := hv ▸ Nat.mod_lt _ (by norm_num)
  interval_cases v <;> rfl

/-- The COMP LATCH decoder never reaches its `unreachable!()` arm. -/
theorem comp_latch_fromWord_isSome (w : Nat) : (CompLatch.fromWord w).isSome := by
  unfold CompLatch.fromWord
  have hm : (0x0004 : Nat) = (2 ^ 1 - 1) <<< 2 := by decide
  rw [hm, and_mask_shr]
  norm_num
  generalize hv : w / 4 % 2 = v
  have hlt : v < 2 := hv ▸ Nat.mod_lt _ (by norm_num)
  interval_cases v <;> rfl

/-- The COMP QUEUE decoder never reaches its `unreachable!()` arm. -/
theorem comp_queue_fromWord_isSome (w : Nat) : (CompQueue.fromWord w).isSome := by
  unfold CompQueue.fromWord
  have hm : (0x0003 : Nat) = (2 ^ 2 - 1) <<< 0 := by decide
  rw [hm, and_mask_shr]
  norm_num
  generalize hv : w % 4 = v
  have hlt : v < 4 := hv ▸ Nat.mod_lt _ (by norm_num)
  interval_cases v <;> rfl

/-- Decoding a whole config word never panics: every field decoder is total. -/
theorem config_fromWord_isSome (w : Nat) : (Config.fromWord w).isSome := by
  unfold Config.fromWord
  obtain ⟨a, ha⟩ := Option.isSome_iff_exists.mp (os_fromWord_isSome w)
  obtain ⟨b, hb⟩ := Option.isSome_iff_exists.mp (mux_fromWord_isSome w)
  obtain ⟨p, hp⟩ := Option.isSome_iff_exists.mp (pga_fromWord_isSome w)
  obtain ⟨m, hm⟩ := Option.isSome_iff_exists.mp (mode_fromWord_isSome w)
  obtain ⟨d, hd⟩ := Option.isSome_iff_exists.mp (data_rate_fromWord_isSome w)
  obtain ⟨e, he⟩ := Option.isSome_iff_exists.mp (comp_mode_fromWord_isSome w)
  obtain ⟨f, hf⟩ := Option.isSome_iff_exists.mp (comp_polarity_fromWord_isSome w)
  obtain ⟨g, hg⟩ := Option.isSome_iff_exists.mp (comp_latch_fromWord_isSome w)
  obtain ⟨q, hq⟩ := Option.isSome_iff_exists.mp (comp_queue_fromWord_isSome w)
  rw [ha, hb, hp, hm, hd, he, hf, hg, hq]
  rfl

/-- The reserved PGA pattern 6 decodes to the nearest defined value. -/
theorem Pga.fromWord_reserved6 (w : Nat) (h : (w &&& 0x0E00) >>> 9 = 6) :
    Pga.fromWord w = some .fsr0_256V := by
  unfold Pga.fromWord
  rw [h]

/-- The reserved PGA pattern 7 decodes to the nearest defined value. -/
theorem Pga.fromWord_reserved7 (w : Nat) (h : (w &&& 0x0E00) >>> 9 = 7) :
    Pga.fromWord w = some .fsr0_256V := by
  unfold Pga.fromWord
  rw [h]

/-! ## Helpers for the raw-sample decoding claims -/

/-- After the byte manipulation and the shift by 4, at most 12 bits remain. -/
theorem swapShift_lt (w : Nat) : swapShift w < 4096 := by
  show (((w &&& 0xFF) <<< 8 ||| w &&& 0xFF00) % 65536) >>> 4 < 4096
  rw [Nat.shiftRight_eq_div_pow]
  norm_num
  omega

/-- Bit 15 of the shifted value is always clear. -/
theorem swapShift_and_top (w : Nat) : swapShift w &&& 0x8000 = 0 := by
  have hlt : swapShift w < 4096 := swapShift_lt w
  have h15 : swapShift w < 2 ^ 15 := lt_trans hlt (by norm_num)
  have hm : (0x8000 : Nat) = 2 ^ 15 := by norm_num
  rw [hm, Nat.and_two_pow, Nat.testBit_lt_two_pow h15]
  rfl

/-- The sign fix-up branch of `read_raw` never fires. -/
theorem decodeRawBits_eq_swapShift (w : Nat) : decodeRawBits w = swapShift w := by
  unfold decodeRawBits signFix
  rw [swapShift_and_top w]
  simp

/-- Reinterpreting a small value as `i16` is the identity. -/
theorem asI16_of_small {bits : Nat} (h : bits < 32768) : asI16 bits = bits := by
  have hx : bits % 65536 = bits := Nat.mod_eq_of_lt (by omega)
  unfold asI16
  simp only [hx]
  rw [if_pos h]

/-! ## Claim theorems -/

/-- C2: for every `Config` built from any combination of the nine field enum
values, decoding the 16-bit word produced by encoding it returns the
original config: `Config::from(u16::from(cfg)) == cfg`. -/
theorem claim_C2_config_roundtrip (c : Config) :
    Config.fromWord (configToWord c) = some c :=
  Config.fromWord_configToWord c

/-- C7: decoding a config word never panics for any of the 65536 possible
`u16` inputs (every field decoder is total), and the reserved 3-bit gain
patterns 6 and 7 both decode to `Fsr0_256V`. -/
theorem claim_C7_decode_total_and_reserved :
    (∀ w : Nat, w < 65536 → (Config.fromWord w).isSome) ∧
    (∀ w : Nat, (w &&& 0x0E00) >>> 9 = 6 → Pga.fromWord w = some Pga.fsr0_256V) ∧
    (∀ w : Nat, (w &&& 0x0E00) >>> 9 = 7 → Pga.fromWord w = some Pga.fsr0_256V) :=
  ⟨fun w _ => config_fromWord_isSome w, Pga.fromWord_reserved6, Pga.fromWord_reserved7⟩

/-- Witness for C7: the mock default word 0x8583 decodes, and the words with
gain bits 6 and 7 decode the gain to `Fsr0_256V`. -/
theorem claim_C7_decode_total_and_reserved_witness :
    (Config.fromWord 0x8583).isSome ∧
    Pga.fromWord 0x0C00 = some Pga.fsr0_256V ∧ Pga.fromWord 0x0E00 = some Pga.fsr0_256V :=
  ⟨claim_C7_decode_total_and_reserved.1 0x8583 (by norm_num),
   claim_C7_decode_total_and_reserved.2.1 0x0C00 (by decide),
   claim_C7_decode_total_and_reserved.2.2 0x0E00 (by decide)⟩

/-- C10: in `read_raw`, after the byte manipulation and the shift right by 4,
`raw & 0x8000` is 0 for every possible 16-bit transfer word, so the
two's-complement fix-up branch is unreachable, the decoded count lies in
[0, 4095], and the returned voltage is never negative for any gain. -/
theorem claim_C10_sign_branch_unreachable :
    ∀ w : Nat, w < 65536 →
      swapShift w &&& 0x8000 = 0 ∧
      decodeRawBits w = swapShift w ∧
      0 ≤ asI16 (decodeRawBits w) ∧ asI16 (decodeRawBits w) ≤ 4095 ∧
      ∀ pga : Pga, 0 ≤ read_raw_voltage w pga := by
  intro w _
  have h1 := swapShift_and_top w
  have h2 := decodeRawBits_eq_swapShift w
  have hlt := swapShift_lt w
  have h3 : asI16 (decodeRawBits w) = (swapShift w : Int) := by
    rw [h2]
    exact asI16_of_small (by omega)
  refine ⟨h1, h2, ?_, ?_, ?_⟩
  · rw [h3]
    exact Int.natCast_nonneg _
  · rw [h3]
    have h4 : swapShift w ≤ 4095 := by omega
    exact_mod_cast h4
  · intro pga
    unfold read_raw_voltage
    apply mul_nonneg
    · rw [h3]
      positivity
    · cases pga <;> norm_num [Pga.as_lsb]

/-- Witness for C10 at the transfer word 0x00FF. -/
theorem claim_C10_sign_branch_unreachable_witness :
    swapShift 0x00FF &&& 0x8000 = 0 ∧
    decodeRawBits 0x00FF = swapShift 0x00FF ∧
    0 ≤ asI16 (decodeRawBits 0x00FF) ∧ asI16 (decodeRawBits 0x00FF) ≤ 4095 ∧
    ∀ pga : Pga, 0 ≤ read_raw_voltage 0x00FF pga :=
  claim_C10_sign_branch_unreachable 0x00FF (by norm_num)

/-- C1: the decoding performed by `read_raw` on the transfer word 0x00FF
yields the count 4080, which lies outside the claimed 12-bit signed range
[-2048, 2047]; the sign bit is not propagated (the correct two's-complement
decode of this word would be -16). -/
theorem claim_C1_failing_word_eval :
    asI16 (decodeRawBits 0x00FF) = 4080 ∧ ¬(asI16 (decodeRawBits 0x00FF) ≤ 2047) := by
  decide

/-- C6 counterexample: a successful write followed by a successful read-back
of the word 0 (which decodes to a config differing from the requested
default) returns `Ok(())` with an empty log: the mismatch anomaly is not
logged anywhere, the branch in the source being empty. -/
theorem claim_C6_mismatch_not_logged :
    ADS101x.configOp Config.default Config.default (Except.ok ()) (Except.ok 0) =
      some ⟨Except.ok (), ⟨.off, .ain0Ain1, .fsr6_144V, .continuous, .sps128, .traditional,
        .activeLow, .nonlatching, .oneConversion⟩, []⟩ ∧
    (⟨.off, .ain0Ain1, .fsr6_144V, .continuous, .sps128, .traditional,
      .activeLow, .nonlatching, .oneConversion⟩ : Config) ≠ Config.default := by
  exact ⟨rfl, by decide⟩

/-- C6 (amended): whenever the write and the read-back transport operations
succeed, `ADS101x::config` returns `Ok(())` — even when the read-back config
differs from the requested one — emits nothing, and sets the in-memory
config mirror to whatever the hardware reports. -/
theorem claim_C6_configure_permissive :
    ∀ (self requested : Config) (w : Nat), w < 65536 →
      ∃ reported : Config, Config.fromWord w = some reported ∧
        ADS101x.configOp self requested (Except.ok ()) (Except.ok w) =
          some ⟨Except.ok (), reported, []⟩ := by
  intro self requested w _
  obtain ⟨r, hr⟩ := Option.isSome_iff_exists.mp (config_fromWord_isSome w)
  refine ⟨r, hr, ?_⟩
  have hstep : ADS101x.configOp self requested (Except.ok ()) (Except.ok w) =
      match Config.fromWord w with
      | none => none
      | some newConfig => some (ConfigOutcome.mk (Except.ok ()) newConfig []) := rfl
  rw [hstep, hr]

/-- Witness for C6 at the mismatching read-back word 0. -/
theorem claim_C6_configure_permissive_witness :
    ∃ reported : Config, Config.fromWord 0 = some reported ∧
      ADS101x.configOp Config.default Config.default (Except.ok ()) (Except.ok 0) =
        some ⟨Except.ok (), reported, []⟩ :=
  claim_C6_configure_permissive Config.default Config.default 0 (by norm_num)

/-- C9: every frame `Context::run` hands to `try_send` has its sensor field
equal to the default empty value, and in the tick's event order the push
happens strictly before the sensor read, whose result only reaches the
local frame variable that the source drops on return. -/
theorem claim_C9_pushed_frame_has_no_reading :
    ∀ (cmdRecv : Option Cmd) (sendAccepted : Bool) (readRes : Except TransportError ℚ),
      (Context.run cmdRecv sendAccepted readRes).pushed.sensor = none ∧
      ∃ i j, i < j ∧
        (Context.run cmdRecv sendAccepted readRes).trace.get? i =
          some (.pushFrame (Context.run cmdRecv sendAccepted readRes).pushed sendAccepted) ∧
        (Context.run cmdRecv sendAccepted readRes).trace.get? j =
          some (.readSensor (readOkOf readRes)) := by
  intro cmdRecv sendAccepted readRes
  rcases cmdRecv with _ | ⟨_ | _⟩
  · exact ⟨rfl, 0, 2, by norm_num, rfl, rfl⟩
  · exact ⟨rfl, 1, 3, by norm_num, rfl, rfl⟩
  · exact ⟨rfl, 1, 3, by norm_num, rfl, rfl⟩

/-- C3: on a tick with no pending command, an accepted send and a successful
read of 1 volt, `Context::run` pushes the default (sensor-empty) frame
before the sensor read takes place, and the reading lands only in the local
frame value that the caller never sees. -/
theorem claim_C3_push_precedes_read_eval :
    Context.run none true (Except.ok 1) =
      { trace := [.pushFrame Data.default true, .sleep, .readSensor true]
        pushed := Data.default
        finalData := ⟨some ⟨1, .bar⟩, none, none⟩ } := rfl

/-- C8: the field-value encoding renders a signed integer as its digits
suffixed with `i`, an unsigned integer as its digits suffixed with `u`, a
floating-point value as its bare numeral with nothing appended, and a
boolean as the literal text `true` or `false`. -/
theorem claim_C8_field_value_markers :
    (∀ n : ℤ, toFieldValue (.signed n) = toString n ++ "i") ∧
    (∀ n : ℕ, toFieldValue (.unsigned n) = toString n ++ "u") ∧
    (∀ s : String, toFieldValue (.floating s) = s) ∧
    toFieldValue (.boolean true) = "true" ∧ toFieldValue (.boolean false) = "false" :=
  ⟨fun _ => rfl, fun _ => rfl, fun _ => rfl, rfl, rfl⟩

/-- C5 counterexample: an entity with an empty field set still produces a
record — the generated `to_line_protocol` returns `Ok` with an empty field
segment instead of dropping the record. -/
theorem claim_C5_zero_field_record_emitted :
    toLineProtocol ⟨"measurment", [], [], Except.ok 0⟩ = Except.ok "measurment  0" := rfl

/-- C5 (amended): a record with zero fields is emitted, not dropped: for
every measurement, tag set and obtained timestamp, the encoding returns
`Ok` with an empty field segment between the two separating spaces. -/
theorem claim_C5_zero_fields_still_ok :
    ∀ (m : String) (tags : List (String × String)) (ts : Nat),
      toLineProtocol ⟨m, tags, [], Except.ok ts⟩ =
        Except.ok (String.intercalate "," (m :: tags.map (fun t => t.1 ++ "=" ++ t.2)) ++
          " " ++ "" ++ " " ++ toString ts) :=
  fun _ _ _ => rfl

/-- C4 counterexample: pushing 51 single-record frames through
`process_data` produces exactly one flush, but its batch carries all 51
records and the fresh buffer is empty — not a 50-record batch with 1 record
left, because the source flushes only once the counter exceeds 50. -/
theorem claim_C4_batch_is_51_not_50 :
    (process_data (List.replicate 51 ⟨false, Except.ok ["r"]⟩)).flushes.map List.length =
      [51] ∧
    (process_data (List.replicate 51 ⟨false, Except.ok ["r"]⟩)).buf.length = 0 ∧
    ¬((process_data (List.replicate 51 ⟨false, Except.ok ["r"]⟩)).flushes.map List.length =
        [50] ∧
      (process_data (List.replicate 51 ⟨false, Except.ok ["r"]⟩)).buf.length = 1) := by
  decide

/-- C4 (amended): 51 single-record frames trigger exactly one flush whose
batch carries all 51 records, and the fresh buffer started after the flush
is empty. -/
theorem claim_C4_single_flush_carries_all :
    (process_data (List.replicate 51 ⟨false, Except.ok ["r"]⟩)).flushes =
      [List.replicate 51 "r"] ∧
    (process_data (List.replicate 51 ⟨false, Except.ok ["r"]⟩)).buf = [] ∧
    (process_data (List.replicate 51 ⟨false, Except.ok ["r"]⟩)).entries = 0 := by
  decide

end RCtrl
